import Mathlib

/-!
Shallow embedding of the `database` crate (`src/lib.rs`): a connection-pool
manager for PostgreSQL with separate reader and writer pools, configured from
the environment variables `DATABASE_URL`, `DATABASE_WRITE_URL` and
`DATABASE_READ_URL`, published through a process-wide once-cell.

Modelling choices:
  * The environment is a record of three `Option String` fields, one per
    variable (`env::var` succeeds exactly when the variable is set).
  * `PgPoolOptions::new().connect(&url)` is modelled by an oracle
    `w : String → Bool` saying whether connecting against a given URL
    succeeds, together with a fresh allocation id for each pool actually
    created, so that two pools opened against the same URL are distinct
    handles while a `clone()` of a pool is the same handle.
  * A Rust panic is `Except.error` carrying the panic message; the second
    component of `Database.init`'s result records, in order, every URL
    against which a pool creation was attempted.
  * The `OnceCell` global is `Option Database` threaded explicitly; the
    process-wide `init` returns whether the cell's initializer ran.
-/

/-- Environment: which of the three configuration variables are set, and to
what value. `none` models `env::var` returning `Err` (variable unset). -/
structure Env where
  DATABASE_URL : Option String
  DATABASE_WRITE_URL : Option String
  DATABASE_READ_URL : Option String

/-- A connection-pool handle. `id` is the allocation identity (two pools
created by distinct `connect` calls differ in `id` even when opened against
the same URL; cloning a handle preserves it), `connUrl` the URL the pool was
opened against. -/
structure Pool where
  id : Nat
  connUrl : String
deriving DecidableEq

/-- One `PgPoolOptions::new().connect(&url)` call: succeeds iff the oracle
`w` accepts the URL, allocating the pool under the given fresh id. -/
def connect (w : String → Bool) (freshId : Nat) (url : String) : Option Pool :=
  if w url then some ⟨freshId, url⟩ else none

/-- The `Database` struct of `src/lib.rs`: recorded connection string plus
the reader and writer pool handles. -/
structure Database where
  url : String
  reader : Pool
  writer : Pool
deriving DecidableEq

/-- The straight-line prelude of `Database::init`: the two `if let` blocks
over `DATABASE_URL` then `DATABASE_WRITE_URL`, updating the mutable
`(is_valid_connection, writer, url)` triple that starts as
`(false, String::default(), String::default())`. -/
def resolveConfig (env : Env) : Bool × String × String :=
  let s0 : Bool × String × String := (false, "", "")
  let s1 :=
    match env.DATABASE_URL with
    | some s => (true, s, s)
    | none => s0
  match env.DATABASE_WRITE_URL with
  | some s => (true, s, s)
  | none => s1

/-- `Database::init` from `src/lib.rs`. Returns the constructed `Database`
or the panic message, paired with the ordered list of URLs against which a
pool creation was attempted. The writer pool, when created, receives id 0;
a distinct reader pool receives id 1; `writer.clone()` is the writer handle
itself. -/
def Database.init (env : Env) (w : String → Bool) :
    Except String Database × List String :=
  match resolveConfig env with
  | (isValid, writerUrl, url0) =>
    if isValid then
      match connect w 0 writerUrl with
      | some wp =>
        match env.DATABASE_READ_URL with
        | some s =>
          match connect w 1 s with
          | some pool => (Except.ok ⟨s, pool, wp⟩, [writerUrl, s])
          | none => (Except.ok ⟨s, wp, wp⟩, [writerUrl, s])
        | none => (Except.ok ⟨url0, wp, wp⟩, [writerUrl])
      | none => (Except.error "Invalid database connection string", [writerUrl])
    else
      (Except.error "Unable to connect to the database", [])

/-- The state of the global `DATABASE: OnceCell<Arc<Database>>`. -/
abbrev GState := Option Database

/-- The process-wide `init()`: `DATABASE.get_or_init(...)`. If the cell is
already filled it is left untouched and the initializer does not run
(second component `false`); otherwise `Database::init` runs (second
component `true`) and on success its result fills the cell, while a panic
propagates. -/
def init (env : Env) (w : String → Bool) (g : GState) :
    Except String GState × Bool :=
  match g with
  | some db => (Except.ok (some db), false)
  | none =>
    match (Database.init env w).1 with
    | Except.ok db => (Except.ok (some db), true)
    | Except.error e => (Except.error e, true)

/-- Run `n` successive calls of the process-wide `init()` from state `g`,
returning the final cell state and how many of the calls ran the
initializer. A panicking call terminates the process, so later calls do
not happen. -/
def iterInit (env : Env) (w : String → Bool) : Nat → GState → GState × Nat
  | 0, g => (g, 0)
  | n + 1, g =>
    match init env w g with
    | (Except.ok g2, ran) =>
      match g2 with
      | some db =>
        let r := iterInit env w n (some db)
        (r.1, (if ran then 1 else 0) + r.2)
      | none => (none, if ran then 1 else 0)
    | (Except.error _, _) => (g, 1)

/-- The module-level `reader()` accessor: the reader pool of the singleton,
or the panic `"Database not initialized"` when the cell is empty. -/
def reader (g : GState) : Except String Pool :=
  match g with
  | some db => Except.ok db.reader
  | none => Except.error "Database not initialized"

/-- The module-level `writer()` accessor: the writer pool of the singleton,
or the panic `"Database not initialized"` when the cell is empty. -/
def writer (g : GState) : Except String Pool :=
  match g with
  | some db => Except.ok db.writer
  | none => Except.error "Database not initialized"

/-- The module-level `url()` accessor: the recorded connection string of the
singleton, or the panic `"Database not initialized"` when the cell is
empty. -/
def url (g : GState) : Except String String :=
  match g with
  | some db => Except.ok db.url
  | none => Except.error "Database not initialized"

/-- Spec-side definition of "the last URL resolved in the precedence chain
`DATABASE_URL`, then `DATABASE_WRITE_URL`, then `DATABASE_READ_URL`":
the reader URL when set, else the writer URL when set, else the generic
URL. Stated from the spec's words, to be compared with the `url` field the
code actually records. -/
def lastResolvedSpec (env : Env) : Option String :=
  match env.DATABASE_READ_URL with
  | some r => some r
  | none =>
    match env.DATABASE_WRITE_URL with
    | some b => some b
    | none => env.DATABASE_URL

/-- Config resolution when `DATABASE_WRITE_URL` is set: it wins whatever
`DATABASE_URL` holds. -/
theorem resolveConfig_write (u : Option String) (b : String) (r : Option String) :
    resolveConfig ⟨u, some b, r⟩ = (true, b, b) := by
  cases u <;> rfl

/-- Config resolution when only `DATABASE_URL` is set. -/
theorem resolveConfig_url_only (a : String) (r : Option String) :
    resolveConfig ⟨some a, none, r⟩ = (true, a, a) := rfl

/-- Behaviour of `Database::init` when neither writer variable is set. -/
theorem init_no_config (r : Option String) (w : String → Bool) :
    Database.init ⟨none, none, r⟩ w =
      (Except.error "Unable to connect to the database", []) := rfl

/-- Behaviour of `Database::init` when the writer connection fails. -/
theorem init_writer_fail (env : Env) (w : String → Bool) (wu u0 : String)
    (hres : resolveConfig env = (true, wu, u0)) (hw : w wu = false) :
    Database.init env w =
      (Except.error "Invalid database connection string", [wu]) := by
  simp [Database.init, hres, connect, hw]

/-- Behaviour of `Database::init` when the writer connects and no reader
URL is set. -/
theorem init_ok_noread (env : Env) (w : String → Bool) (wu u0 : String)
    (hres : resolveConfig env = (true, wu, u0))
    (hR : env.DATABASE_READ_URL = none) (hw : w wu = true) :
    Database.init env w = (Except.ok ⟨u0, ⟨0, wu⟩, ⟨0, wu⟩⟩, [wu]) := by
  simp [Database.init, hres, connect, hw, hR]

/-- Behaviour of `Database::init` when the writer connects and the reader
URL connects too. -/
theorem init_ok_read_ok (env : Env) (w : String → Bool) (wu u0 s : String)
    (hres : resolveConfig env = (true, wu, u0))
    (hR : env.DATABASE_READ_URL = some s) (hw : w wu = true) (hs : w s = true) :
    Database.init env w = (Except.ok ⟨s, ⟨1, s⟩, ⟨0, wu⟩⟩, [wu, s]) := by
  simp [Database.init, hres, connect, hw, hR, hs]

/-- Behaviour of `Database::init` when the writer connects and the reader
URL does not. -/
theorem init_ok_read_fail (env : Env) (w : String → Bool) (wu u0 s : String)
    (hres : resolveConfig env = (true, wu, u0))
    (hR : env.DATABASE_READ_URL = some s) (hw : w wu = true) (hs : w s = false) :
    Database.init env w = (Except.ok ⟨s, ⟨0, wu⟩, ⟨0, wu⟩⟩, [wu, s]) := by
  simp [Database.init, hres, connect, hw, hR, hs]

/-- Whenever the configuration resolves to a valid writer URL, the
configuration error is not produced (whatever happens to the
connections). -/
theorem init_valid_not_config_error (env : Env) (w : String → Bool)
    (wu u0 : String) (hres : resolveConfig env = (true, wu, u0)) :
    (Database.init env w).1 ≠ Except.error "Unable to connect to the database" := by
  by_cases hw : w wu = true
  · cases hR : env.DATABASE_READ_URL with
    | some s =>
      by_cases hs : w s = true
      · rw [init_ok_read_ok env w wu u0 s hres hR hw hs]; simp
      · rw [init_ok_read_fail env w wu u0 s hres hR hw
          (by simpa using hs)]; simp
    | none => rw [init_ok_noread env w wu u0 hres hR hw]; simp
  · rw [init_writer_fail env w wu u0 hres (by simpa using hw)]
    intro hc
    injection hc with hs
    exact absurd hs (by decide)

/-- Whenever `Database::init` succeeds, the recorded `url` field is the
reader URL when set, else the third component of the resolved
configuration. -/
theorem init_ok_url_eq (env : Env) (w : String → Bool) (db : Database)
    (wu u0 : String) (hres : resolveConfig env = (true, wu, u0))
    (h : (Database.init env w).1 = Except.ok db) :
    db.url = (match env.DATABASE_READ_URL with | some s => s | none => u0) := by
  by_cases hw : w wu = true
  · cases hR : env.DATABASE_READ_URL with
    | some s =>
      by_cases hs : w s = true
      · rw [init_ok_read_ok env w wu u0 s hres hR hw hs] at h
        injection h with h2
        rw [← h2]
      · rw [init_ok_read_fail env w wu u0 s hres hR hw
          (by simpa using hs)] at h
        injection h with h2
        rw [← h2]
    | none =>
      rw [init_ok_noread env w wu u0 hres hR hw] at h
      injection h with h2
      rw [← h2]
  · rw [init_writer_fail env w wu u0 hres (by simpa using hw)] at h
    exact absurd h (by simp)

/-- C3: when neither `DATABASE_URL` nor `DATABASE_WRITE_URL` is set,
`Database::init` panics with the configuration error before any pool
creation is attempted: the attempt trace is empty, whatever
`DATABASE_READ_URL` and the connection oracle are. -/
theorem c3_no_writer_url_fatal_before_pools (r : Option String) (w : String → Bool) :
    Database.init ⟨none, none, r⟩ w =
      (Except.error "Unable to connect to the database", []) := rfl

/-- C9: each accessor panics with `"Database not initialized"` on the empty
cell, and returns the corresponding field of the singleton once the cell is
filled. -/
theorem c9_accessors_before_and_after :
    reader none = Except.error "Database not initialized" ∧
    writer none = Except.error "Database not initialized" ∧
    url none = Except.error "Database not initialized" ∧
    ∀ db : Database,
      reader (some db) = Except.ok db.reader ∧
      writer (some db) = Except.ok db.writer ∧
      url (some db) = Except.ok db.url :=
  ⟨rfl, rfl, rfl, fun _ => ⟨rfl, rfl, rfl⟩⟩

/-- C1: with `DATABASE_READ_URL` set to a URL against which connecting
fails, while the resolved writer URL connects successfully, `Database::init`
succeeds and the reader pool of the result is the very same pool handle as
the writer pool (silent fallback, no error surfaced). -/
theorem c1_reader_failure_silent_fallback (env : Env) (w : String → Bool)
    (r wu u0 : String)
    (hR : env.DATABASE_READ_URL = some r)
    (hres : resolveConfig env = (true, wu, u0))
    (hwOk : w wu = true) (hrFail : w r = false) :
    (Database.init env w).1.isOk = true ∧
    (Database.init env w).1.toOption.map Database.reader =
      (Database.init env w).1.toOption.map Database.writer := by
  have hinit : Database.init env w =
      (Except.ok ⟨r, ⟨0, wu⟩, ⟨0, wu⟩⟩, [wu, r]) := by
    simp [Database.init, hres, connect, hwOk, hR, hrFail]
  rw [hinit]
  exact ⟨rfl, rfl⟩

/-- C1 witness: a concrete environment where the reader URL is unreachable
but the writer URL connects. -/
theorem c1_witness :
    ((Database.init ⟨some "a", none, some "r"⟩ (fun s => s == "a")).1.isOk = true ∧
      (Database.init ⟨some "a", none, some "r"⟩ (fun s => s == "a")).1.toOption.map
          Database.reader =
        (Database.init ⟨some "a", none, some "r"⟩ (fun s => s == "a")).1.toOption.map
          Database.writer) :=
  c1_reader_failure_silent_fallback _ _ "r" "a" "a" rfl rfl (by decide) (by decide)

/-- C2: when both `DATABASE_URL` and `DATABASE_WRITE_URL` are set, the
writer URL resolves to the `DATABASE_WRITE_URL` value, and the first (and
writer) pool-creation attempt of `Database::init` targets that value, not
`DATABASE_URL`. -/
theorem c2_write_url_overrides (env : Env) (w : String → Bool) (a b : String)
    (_hU : env.DATABASE_URL = some a) (hW : env.DATABASE_WRITE_URL = some b) :
    (resolveConfig env).2.1 = b ∧
    (Database.init env w).2.head? = some b := by
  have hres : resolveConfig env = (true, b, b) := by
    simp [resolveConfig, hW]
  refine ⟨by rw [hres], ?_⟩
  unfold Database.init
  rw [hres]
  by_cases hw : w b
  · cases hR : env.DATABASE_READ_URL with
    | some s =>
      by_cases hr : w s <;> simp [connect, hw, hr, hR]
    | none => simp [connect, hw, hR]
  · simp [connect, hw]

/-- C2 witness: both variables set to distinct values. -/
theorem c2_witness :
    (resolveConfig ⟨some "a", some "b", none⟩).2.1 = "b" ∧
    (Database.init ⟨some "a", some "b", none⟩ (fun _ => true)).2.head? = some "b" :=
  c2_write_url_overrides _ _ "a" "b" rfl rfl

/-- C5: with `DATABASE_READ_URL` unset and a writer URL that connects,
`Database::init` succeeds, only the writer pool is created, and the reader
field of the result is the same pool handle as the writer field (the clone
of the writer pool). -/
theorem c5_reader_defaults_to_writer (env : Env) (w : String → Bool)
    (wu u0 : String)
    (hR : env.DATABASE_READ_URL = none)
    (hres : resolveConfig env = (true, wu, u0))
    (hwOk : w wu = true) :
    (Database.init env w).2 = [wu] ∧
    (Database.init env w).1.isOk = true ∧
    (Database.init env w).1.toOption.map Database.reader =
      (Database.init env w).1.toOption.map Database.writer := by
  have hinit : Database.init env w = (Except.ok ⟨u0, ⟨0, wu⟩, ⟨0, wu⟩⟩, [wu]) := by
    simp [Database.init, hres, connect, hwOk, hR]
  rw [hinit]
  exact ⟨rfl, rfl, rfl⟩

/-- C5 witness: only `DATABASE_URL` set, connection succeeds. -/
theorem c5_witness :
    (Database.init ⟨some "u", none, none⟩ (fun _ => true)).2 = ["u"] ∧
    (Database.init ⟨some "u", none, none⟩ (fun _ => true)).1.isOk = true ∧
    (Database.init ⟨some "u", none, none⟩ (fun _ => true)).1.toOption.map
        Database.reader =
      (Database.init ⟨some "u", none, none⟩ (fun _ => true)).1.toOption.map
        Database.writer :=
  c5_reader_defaults_to_writer _ _ "u" "u" rfl rfl (by decide)

/-- C7: when a writer URL is resolved but connecting against it fails,
`Database::init` panics with the connection error; the attempt trace is
exactly the single writer attempt, so no reader pool creation is attempted
even when `DATABASE_READ_URL` is set, and no `Database` value is
produced. -/
theorem c7_writer_failure_fatal (env : Env) (w : String → Bool)
    (wu u0 : String)
    (hres : resolveConfig env = (true, wu, u0)) (hw : w wu = false) :
    Database.init env w =
      (Except.error "Invalid database connection string", [wu]) := by
  simp [Database.init, hres, connect, hw]

/-- C7 witness: writer URL unreachable while a reader URL is set. -/
theorem c7_witness :
    Database.init ⟨some "x", none, some "r"⟩ (fun _ => false) =
      (Except.error "Invalid database connection string", ["x"]) :=
  c7_writer_failure_fatal _ _ "x" "x" rfl rfl

/-- C10: when `DATABASE_READ_URL` is set but the reader connection attempt
fails (silent fallback to the writer pool), the `url` field of the returned
`Database` still equals the `DATABASE_READ_URL` value: it is assigned
before the reader connection attempt. -/
theorem c10_url_records_unreachable_reader (env : Env) (w : String → Bool)
    (r wu u0 : String)
    (hR : env.DATABASE_READ_URL = some r)
    (hres : resolveConfig env = (true, wu, u0))
    (hwOk : w wu = true) (hrFail : w r = false) :
    (Database.init env w).1.toOption.map Database.url = some r ∧
    (Database.init env w).1.toOption.map Database.reader =
      (Database.init env w).1.toOption.map Database.writer := by
  have hinit : Database.init env w =
      (Except.ok ⟨r, ⟨0, wu⟩, ⟨0, wu⟩⟩, [wu, r]) := by
    simp [Database.init, hres, connect, hwOk, hR, hrFail]
  rw [hinit]
  exact ⟨rfl, rfl⟩

/-- C10 witness: writer connects, reader URL does not. -/
theorem c10_witness :
    (Database.init ⟨none, some "wv", some "rv"⟩ (fun s => s == "wv")).1.toOption.map
        Database.url = some "rv" ∧
    (Database.init ⟨none, some "wv", some "rv"⟩ (fun s => s == "wv")).1.toOption.map
        Database.reader =
      (Database.init ⟨none, some "wv", some "rv"⟩ (fun s => s == "wv")).1.toOption.map
        Database.writer :=
  c10_url_records_unreachable_reader _ _ "rv" "wv" "wv" rfl rfl (by decide) (by decide)

/-- C4 counterexample: `DATABASE_URL` set to the empty string (so neither
variable resolves to a non-empty value). `Database::init` does not fail
with the configuration error before pool creation: it attempts a pool
against the empty string, and when that connection succeeds it even returns
a `Database`. The validity check of the code tests only that a variable is
set, not that it is non-empty. -/
theorem c4_counterexample :
    (Database.init ⟨some "", none, none⟩ (fun _ => true)).2 ≠ [] ∧
    (Database.init ⟨some "", none, none⟩ (fun _ => true)).1 =
      Except.ok ⟨"", ⟨0, ""⟩, ⟨0, ""⟩⟩ := by
  exact ⟨by decide, rfl⟩

/-- C4 amended: `Database::init` fails with the configuration error
`"Unable to connect to the database"` exactly when neither `DATABASE_URL`
nor `DATABASE_WRITE_URL` is set at all; a variable that is set (even to the
empty string) counts as a usable writer URL and pool creation is attempted
against it. -/
theorem c4_config_error_iff_both_unset (env : Env) (w : String → Bool) :
    ((Database.init env w).1 = Except.error "Unable to connect to the database" ↔
      env.DATABASE_URL = none ∧ env.DATABASE_WRITE_URL = none) := by
  obtain ⟨u, b, r⟩ := env
  constructor
  · intro h
    cases b with
    | some bv =>
      exact absurd h
        (init_valid_not_config_error _ w bv bv (resolveConfig_write u bv r))
    | none =>
      cases u with
      | none => exact ⟨rfl, rfl⟩
      | some uv =>
        exact absurd h
          (init_valid_not_config_error _ w uv uv (resolveConfig_url_only uv r))
  · rintro ⟨hu, hb⟩
    cases u with
    | none =>
      cases b with
      | none => rw [init_no_config r w]
      | some bv => exact absurd hb (by simp)
    | some uv => exact absurd hu (by simp)

/-- C6: whenever `Database::init` succeeds, the `url` field of the returned
`Database` is the last URL resolved in the precedence chain `DATABASE_URL`,
then `DATABASE_WRITE_URL`, then `DATABASE_READ_URL`: the reader URL when
set, else the writer URL when set, else the generic URL. -/
theorem c6_url_is_last_resolved (env : Env) (w : String → Bool) (db : Database)
    (h : (Database.init env w).1 = Except.ok db) :
    lastResolvedSpec env = some db.url := by
  obtain ⟨u, b, r⟩ := env
  cases b with
  | some bv =>
    have hurl := init_ok_url_eq _ w db bv bv (resolveConfig_write u bv r) h
    cases r <;> simp_all [lastResolvedSpec]
  | none =>
    cases u with
    | none =>
      rw [init_no_config r w] at h
      exact absurd h (by simp)
    | some uv =>
      have hurl := init_ok_url_eq _ w db uv uv (resolveConfig_url_only uv r) h
      cases r <;> simp_all [lastResolvedSpec]

/-- C6 witness: all three variables set, both connections succeed; the
recorded URL is the reader URL. -/
theorem c6_witness :
    lastResolvedSpec ⟨some "a", some "b", some "r"⟩ =
      some (Database.url ⟨"r", ⟨1, "r"⟩, ⟨0, "b"⟩⟩) :=
  c6_url_is_last_resolved ⟨some "a", some "b", some "r"⟩ (fun _ => true) _ rfl

/-- C8: the process-wide `init()` is idempotent. If the first call fills
the cell with `db`, then any sequence of `n + 1` successive calls starting
from the uninitialized state runs the initializer exactly once, leaves the
cell holding `db`, and every later call is a no-op observing that same
value. -/
theorem c8_entry_point_idempotent (env : Env) (w : String → Bool)
    (db : Database) (n : Nat)
    (h : (init env w none).1 = Except.ok (some db)) :
    iterInit env w (n + 1) none = (some db, 1) := by
  have hfill : init env w none = (Except.ok (some db), true) := by
    unfold init at h ⊢
    cases hDI : (Database.init env w).1 with
    | ok d =>
      rw [hDI] at h
      simp only [Except.ok.injEq, Option.some.injEq] at h
      rw [h]
    | error e => rw [hDI] at h; exact absurd h (by simp)
  have hstable : ∀ m, iterInit env w m (some db) = (some db, 0) := by
    intro m
    induction m with
    | zero => rfl
    | succ k ih => simp [iterInit, init, ih]
  simp [iterInit, hfill, hstable n]

/-- C8 witness: two successive calls from the uninitialized state against a
reachable `DATABASE_URL` construct exactly once. -/
theorem c8_witness :
    iterInit ⟨some "u", none, none⟩ (fun _ => true) 2 none =
      (some ⟨"u", ⟨0, "u"⟩, ⟨0, "u"⟩⟩, 1) :=
  c8_entry_point_idempotent _ _ _ 1 rfl
